import Mathlib

/-!
Verification of the persistent task scheduler in
`src/scripts/programador_tareas.py` (repository Dragoland/automatizaciones_kde).

The Python source is shallowly embedded: pure decision logic becomes Lean
functions, the side-effecting executor becomes a function returning the list
of effects it performs (store saves, log appends, child-process spawns,
desktop notifications), the SQLite-backed store becomes explicit row values,
and the third-party `schedule` library's job queue becomes a small step
function on a list of jobs.  Environment inputs the code reads at run time
(current clock, child-process outcome, configured security policy) are
passed as explicit parameters.
-/

namespace ProgramadorTareas

/-- `TaskStatus` enum (source lines 23-28). -/
inductive TaskStatus where
  | pending
  | running
  | completed
  | failed
  | cancelled
deriving DecidableEq

/-- String value of a `TaskStatus`, as stored in the database. -/
def TaskStatus.value : TaskStatus → String
  | .pending => "pending"
  | .running => "running"
  | .completed => "completed"
  | .failed => "failed"
  | .cancelled => "cancelled"

/-- Inverse of `TaskStatus.value`; `none` models Python's `ValueError` on an
unknown enum value. -/
def TaskStatus.fromValue : String → Option TaskStatus
  | "pending" => some .pending
  | "running" => some .running
  | "completed" => some .completed
  | "failed" => some .failed
  | "cancelled" => some .cancelled
  | _ => none

/-- `TaskType` enum (source lines 30-34). -/
inductive TaskType where
  | command
  | script
  | notification
  | reminder
deriving DecidableEq

/-- String value of a `TaskType`, as stored in the database. -/
def TaskType.value : TaskType → String
  | .command => "command"
  | .script => "script"
  | .notification => "notification"
  | .reminder => "reminder"

/-- Inverse of `TaskType.value`. -/
def TaskType.fromValue : String → Option TaskType
  | "command" => some .command
  | "script" => some .script
  | "notification" => some .notification
  | "reminder" => some .reminder
  | _ => none

/-- `TriggerType` enum (source lines 36-40). -/
inductive TriggerType where
  | time
  | interval
  | file_change
  | system_event
deriving DecidableEq

/-- String value of a `TriggerType`, as stored in the database. -/
def TriggerType.value : TriggerType → String
  | .time => "time"
  | .interval => "interval"
  | .file_change => "file_change"
  | .system_event => "system_event"

/-- Inverse of `TriggerType.value`. -/
def TriggerType.fromValue : String → Option TriggerType
  | "time" => some .time
  | "interval" => some .interval
  | "file_change" => some .file_change
  | "system_event" => some .system_event
  | _ => none

/-- `trigger_data` dict (source `Dict[str, Any]`): the keys the scheduler
reads.  Absolute timestamps are modelled as seconds (`Nat`); `none` means the
key is absent from the dict. -/
structure TriggerData where
  datetime : Option Nat := none
  cron : Option String := none
  seconds : Option Nat := none
  minutes : Option Nat := none
  hours : Option Nat := none
  days : Option Nat := none
deriving DecidableEq

/-- The `Task` dataclass (source lines 42-69). -/
structure Task where
  id : Option Nat := none
  name : String := ""
  description : String := ""
  task_type : TaskType := .command
  command : String := ""
  arguments : List String := []
  working_dir : String := ""
  trigger_type : TriggerType := .time
  trigger_data : TriggerData := {}
  status : TaskStatus := .pending
  created_at : String := ""
  scheduled_for : String := ""
  executed_at : String := ""
  result_code : Int := 0
  output : String := ""
  enabled : Bool := true
  notify_on_completion : Bool := true
  max_retries : Int := 3
  retry_count : Int := 0
deriving DecidableEq

/-- The `security` section of the configuration (source lines 139-149). -/
structure SecurityConfig where
  allowed_commands : List String
  blocked_commands : List String

/-- The default security configuration (source lines 140-147). -/
def defaultSecurity : SecurityConfig :=
  { allowed_commands := ["echo", "notify-send", "kdialog", "python", "bash", "sh"],
    blocked_commands := ["rm -rf /", "dd if=/dev/random", "mkfs", "shutdown", "reboot"] }

/-- Python's substring test `needle in hay` on strings, over character
lists. -/
def isSubstr (needle : List Char) : List Char → Bool
  | [] => needle.isEmpty
  | c :: rest => needle.isPrefixOf (c :: rest) || isSubstr needle rest

/-- Helper for `pySplit`: walks the characters, accumulating the current
(non-whitespace) run in reverse. -/
def pySplitChars : List Char → List Char → List (List Char)
  | [], acc => if acc.isEmpty then [] else [acc.reverse]
  | c :: rest, acc =>
      if c.isWhitespace then
        if acc.isEmpty then pySplitChars rest []
        else acc.reverse :: pySplitChars rest []
      else pySplitChars rest (c :: acc)

/-- Python's `str.split()` with no separator: split on whitespace runs,
discarding empty fields. -/
def pySplit (s : String) : List String :=
  (pySplitChars s.data []).map List.asString

/-- `_check_command_security` (source lines 363-382).  Returns `some b` for a
normal boolean result; `none` models the uncaught `IndexError` raised by
`command.split()[0]` when the command contains a space but splits to nothing
(the call site at line 391 is outside any `try` block). -/
def _check_command_security (cfg : SecurityConfig) (command : String) : Option Bool :=
  if cfg.blocked_commands.any (fun b => isSubstr b.data command.data) then
    some false
  else
    let base? : Option String :=
      if command.data.contains ' ' then (pySplit command).head? else some command
    match base? with
    | none => none
    | some cmd_base =>
        if !cfg.allowed_commands.isEmpty && !cfg.allowed_commands.contains cmd_base then
          some false
        else
          some true

/-- C1: for every command string and every security policy, if any configured
blocked substring occurs anywhere in the command then `_check_command_security`
returns `false`, regardless of the allow-list: the blocked-pattern check takes
precedence over the allow-list check. -/
theorem C1_blocked_takes_precedence (cfg : SecurityConfig) (command b : String)
    (hb : b ∈ cfg.blocked_commands) (hs : isSubstr b.data command.data = true) :
    _check_command_security cfg command = some false := by
  unfold _check_command_security
  rw [if_pos]
  exact List.any_eq_true.mpr ⟨b, hb, hs⟩

/-- C1 witness: the default policy blocks the concrete command
"rm -rf / --no-preserve-root" even though its first token is not consulted. -/
theorem C1_blocked_takes_precedence_witness :
    _check_command_security defaultSecurity "rm -rf / --no-preserve-root" = some false :=
  C1_blocked_takes_precedence defaultSecurity "rm -rf / --no-preserve-root" "rm -rf /"
    (by decide) (by decide)

/-- Environment inputs `_execute_task` reads at run time: the security policy
and `notify_kde` flag from the configuration, the user's home directory, the
Python interpreter path (`sys.executable`), the clock value
`datetime.now().isoformat()`, and the measured wall-clock duration
`time.time() - start_time`. -/
structure ExecEnv where
  security : SecurityConfig
  notify_kde : Bool
  home : String
  pyExe : String
  nowIso : String
  duration : Nat

/-- Outcome of the child process / `try` block, supplied by the environment:
either the block finishes normally (for COMMAND/SCRIPT with the child's exit
code and captured streams), or `subprocess.TimeoutExpired` is raised, or some
other exception with message `msg` is raised. -/
inductive ProcOutcome where
  | finished (returncode : Int) (stdout stderr : String)
  | timeout
  | exc (msg : String)

/-- One observable side effect of the executor:
a `_save_task_to_db` call carrying the in-memory task it persists,
a `_log_execution` insert into `execution_logs`,
a `subprocess.run` child-process spawn (`shellMode` = string command run with
`shell=True`), or a desktop notification. -/
inductive Effect where
  | saveTask (t : Task)
  | logExec (taskId : Option Nat) (executionTime : String) (duration : Nat)
      (resultCode : Int) (output : String)
  | spawn (prog : String) (args : List String) (shellMode : Bool)
  | notify (title message : String)
deriving DecidableEq

/-- `_send_notification` (source lines 541-550): shows a KDE passive popup via
`kdialog` when `notify_kde` is configured, swallowing errors.  Modelled as a
notification effect. -/
def _send_notification (env : ExecEnv) (title message : String) : List Effect :=
  if env.notify_kde then [Effect.notify title message] else []

/-- Fixed output written when the Security Gate denies a command
(source line 394). -/
def denialOutput : String := "Comando bloqueado por seguridad"

/-- Fixed output written on the timeout branch (source line 523). -/
def timeoutOutput : String := "Timeout (5 minutos)"

/-- The task-kind dispatch inside `_execute_task`'s `try` block when the block
finishes normally (source lines 408-481): the spawn/notification effects of
the branch, the task updated with `result_code`/`output`, and the `success`
flag.  `t1` is the task after the RUNNING transition.  Notification bodies
that the source assembles with formatted durations are abbreviated to the
task name; no claim consults them. -/
def kindDispatch (env : ExecEnv) (rc : Int) (out err : String) (t1 : Task) :
    List Effect × Task × Bool :=
  let working_dir := if t1.working_dir = "" then env.home else t1.working_dir
  match t1.task_type with
  | .command =>
      let sp :=
        if !t1.arguments.isEmpty then
          Effect.spawn t1.command t1.arguments false
        else
          Effect.spawn t1.command [] true
      ([sp], { t1 with result_code := rc, output := out ++ err }, rc == 0)
  | .script =>
      let script_path :=
        if t1.command.startsWith "/" then t1.command
        else working_dir ++ "/" ++ t1.command
      ([Effect.spawn env.pyExe ([script_path] ++ t1.arguments) false],
       { t1 with result_code := rc, output := out ++ err }, rc == 0)
  | .notification =>
      let sps :=
        if t1.command = "kdialog" then
          [Effect.spawn "kdialog" (["--title", t1.name] ++ t1.arguments) false]
        else if t1.command = "notify-send" then
          [Effect.spawn "notify-send" ([t1.name] ++ t1.arguments) false]
        else []
      (sps, { t1 with result_code := 0, output := "Notificación enviada" }, true)
  | .reminder =>
      let message :=
        if !t1.arguments.isEmpty then
          t1.command ++ " " ++ String.intercalate " " t1.arguments
        else t1.command
      (_send_notification env "Recordatorio" message,
       { t1 with result_code := 0, output := "Recordatorio mostrado" }, true)

/-- `_execute_task` (source lines 384-539), as a function of the environment
and the child-process outcome.  Returns `some (returnValue, finalTask,
effects)`; `none` models the uncaught `IndexError` escaping from the security
check at line 391 (which sits outside the `try` block). -/
def _execute_task (env : ExecEnv) (oc : ProcOutcome) (task : Task) :
    Option (Bool × Task × List Effect) :=
  if task.enabled then
    match _check_command_security env.security task.command with
    | none => none
    | some false =>
        let t := { task with status := .failed, output := denialOutput }
        some (false, t, [Effect.saveTask t])
    | some true =>
        let t1 := { task with status := TaskStatus.running }
        match oc with
        | .timeout =>
            let t2 := { t1 with status := .failed, output := timeoutOutput,
                                executed_at := env.nowIso }
            some (false, t2,
              [Effect.saveTask t1, Effect.saveTask t2]
                ++ _send_notification env "⏰ Tarea Timeout" task.name)
        | .exc msg =>
            let t2 := { t1 with status := .failed, output := msg,
                                executed_at := env.nowIso }
            some (false, t2, [Effect.saveTask t1, Effect.saveTask t2])
        | .finished rc out err =>
            let d := kindDispatch env rc out err t1
            let t3 := { d.2.1 with
                          status := if d.2.2 then TaskStatus.completed else TaskStatus.failed,
                          executed_at := env.nowIso }
            let logE := Effect.logExec task.id t3.executed_at env.duration
                          t3.result_code (t3.output.take 1000)
            let doneNotif :=
              if d.2.2 && task.notify_on_completion then
                _send_notification env "✅ Tarea Completada" task.name
              else if !d.2.2 then
                _send_notification env "❌ Tarea Fallida" task.name
              else []
            some (d.2.2, t3,
              [Effect.saveTask t1] ++ d.1
                ++ [Effect.saveTask t3, logE] ++ doneNotif)
  else
    some (false, task, [])

/-- Recognizer for store-save effects. -/
def isSave : Effect → Bool
  | .saveTask _ => true
  | _ => false

/-- Recognizer for execution-log effects. -/
def isLog : Effect → Bool
  | .logExec _ _ _ _ _ => true
  | _ => false

/-- Recognizer for child-process spawn effects. -/
def isSpawn : Effect → Bool
  | .spawn _ _ _ => true
  | _ => false

/-- Recognizer for desktop-notification effects. -/
def isNotif : Effect → Bool
  | .notify _ _ => true
  | _ => false

/-- The tasks persisted along a trace, in order. -/
def savedTasks (es : List Effect) : List Task :=
  es.filterMap fun e =>
    match e with
    | .saveTask t => some t
    | _ => none

/-- The durations recorded in the execution log along a trace. -/
def loggedDurations (es : List Effect) : List Nat :=
  es.filterMap fun e =>
    match e with
    | .logExec _ _ d _ _ => some d
    | _ => none

/-- One row of the `tasks` table (schema at source lines 177-199).  Columns
the program writes on every insert/update are plain values; `executed_at`,
`result_code` and `output` are `Option` (NULL-able — and in fact neither the
INSERT at lines 244-267 nor the UPDATE at lines 271-295 ever writes them).
`arguments` and `trigger_data` are stored as `json.dumps` text; since
`dumps`/`loads` round-trip these values exactly, the row carries the
structured values directly. -/
structure DBRow where
  id : Nat
  name : String
  description : String
  task_type : String
  command : String
  arguments : List String
  working_dir : String
  trigger_type : String
  trigger_data : TriggerData
  status : String
  created_at : String
  scheduled_for : String
  executed_at : Option String
  result_code : Option Int
  output : Option String
  enabled : Int
  notify_on_completion : Int
  max_retries : Int
  retry_count : Int
deriving DecidableEq

/-- The INSERT branch of `_save_task_to_db` (source lines 242-268): `newId`
is the AUTOINCREMENT id, `now` is `datetime.now().isoformat()` used when
`created_at` is empty.  The columns `executed_at`, `result_code`, `output`
are not in the INSERT's column list, so they start NULL. -/
def insertRow (now : String) (newId : Nat) (t : Task) : DBRow :=
  { id := newId,
    name := t.name,
    description := t.description,
    task_type := t.task_type.value,
    command := t.command,
    arguments := t.arguments,
    working_dir := t.working_dir,
    trigger_type := t.trigger_type.value,
    trigger_data := t.trigger_data,
    status := t.status.value,
    created_at := if t.created_at = "" then now else t.created_at,
    scheduled_for := t.scheduled_for,
    executed_at := none,
    result_code := none,
    output := none,
    enabled := if t.enabled then 1 else 0,
    notify_on_completion := if t.notify_on_completion then 1 else 0,
    max_retries := t.max_retries,
    retry_count := t.retry_count }

/-- The UPDATE branch of `_save_task_to_db` (source lines 269-295).  The SET
list covers name, description, task_type, command, arguments, working_dir,
trigger_type, trigger_data, status, scheduled_for, enabled,
notify_on_completion, max_retries and retry_count — and nothing else: the
row's `created_at`, `executed_at`, `result_code` and `output` keep their
previous values. -/
def updateRow (t : Task) (r : DBRow) : DBRow :=
  { r with
    name := t.name,
    description := t.description,
    task_type := t.task_type.value,
    command := t.command,
    arguments := t.arguments,
    working_dir := t.working_dir,
    trigger_type := t.trigger_type.value,
    trigger_data := t.trigger_data,
    status := t.status.value,
    scheduled_for := t.scheduled_for,
    enabled := if t.enabled then 1 else 0,
    notify_on_completion := if t.notify_on_completion then 1 else 0,
    max_retries := t.max_retries,
    retry_count := t.retry_count }

/-- `_save_task_to_db` (source lines 236-303) restricted to the one row it
touches: insert when `t.id` is unset, else update the existing row
`existing`. -/
def _save_task_to_db (now : String) (newId : Nat) (existing : DBRow) (t : Task) : DBRow :=
  match t.id with
  | none => insertRow now newId t
  | some _ => updateRow t existing

/-- `_load_task_from_db` (source lines 305-342) applied to a fetched row.
`none` models the `except` branch (e.g. a `ValueError` from an enum
constructor on a malformed row).  The `row[k] if row[k] else default`
patterns follow Python truthiness: NULL and `0`/`""` are falsy. -/
def _load_task_from_db (r : DBRow) : Option Task :=
  match TaskType.fromValue r.task_type, TriggerType.fromValue r.trigger_type,
        TaskStatus.fromValue r.status with
  | some tt, some gt, some st =>
      some { id := some r.id,
             name := r.name,
             description := r.description,
             task_type := tt,
             command := r.command,
             arguments := r.arguments,
             working_dir := r.working_dir,
             trigger_type := gt,
             trigger_data := r.trigger_data,
             status := st,
             created_at := r.created_at,
             scheduled_for := r.scheduled_for,
             executed_at := r.executed_at.getD "",
             result_code := r.result_code.getD 0,
             output := r.output.getD "",
             enabled := r.enabled != 0,
             notify_on_completion := r.notify_on_completion != 0,
             max_retries := if r.max_retries = 0 then 3 else r.max_retries,
             retry_count := if r.retry_count = 0 then 0 else r.retry_count }
  | _, _, _ => none

/-- A job in the third-party `schedule` library's queue, as created by
`schedule.every(delay).seconds.do(job)`: a recurring job with period
`period`, next due at `next_run` (set at registration to registration time
plus the period).  Times are seconds (`Nat`). -/
structure SchedJob where
  period : Nat
  next_run : Nat
deriving DecidableEq

/-- `_schedule_time_trigger` (source lines 552-580): when the trigger data
carries a `datetime`, the delay to it is computed and — only if the scheduled
time is strictly in the future — an every-`delay`-seconds job is registered
whose callback runs `_execute_task` and returns `None` (so the `schedule`
library never cancels it).  A past or present timestamp registers nothing;
the `cron` branch is `pass`.  Returns the list of jobs registered at
registration time `regTime`. -/
def _schedule_time_trigger (regTime : Nat) (t : Task) : List SchedJob :=
  match t.trigger_data.datetime with
  | some scheduled_time =>
      if regTime < scheduled_time then
        let delay := scheduled_time - regTime
        [{ period := delay, next_run := regTime + delay }]
      else []
  | none => []

/-- `schedule.run_pending()` at clock `now` over a job list: every job whose
`next_run` has arrived runs its callback and is re-armed to `now + period`
(the library sets `last_run = now` and `next_run = last_run + interval`;
callbacks here never return `CancelJob`).  Returns the number of callbacks
run and the updated job list. -/
def runPending (now : Nat) (jobs : List SchedJob) : Nat × List SchedJob :=
  (jobs.countP (fun j => decide (j.next_run ≤ now)),
   jobs.map (fun j => if j.next_run ≤ now then { j with next_run := now + j.period } else j))

/-- One row of the `execution_logs` table (schema at source lines 202-212). -/
structure LogRow where
  id : Nat
  task_id : Nat
  execution_time : String
  duration : Nat
  result_code : Int
  output : String
deriving DecidableEq

/-- The database state the retention sweep touches. -/
structure DB where
  tasks : List DBRow
  logs : List LogRow
deriving DecidableEq

/-- Lexicographic order on character lists by code point; on the ASCII
ISO-8601 timestamps the program stores this coincides with SQLite's
byte-wise TEXT comparison. -/
def lexLt : List Char → List Char → Bool
  | [], [] => false
  | [], _ :: _ => true
  | _ :: _, [] => false
  | a :: as, b :: bs =>
      if a.toNat < b.toNat then true
      else if b.toNat < a.toNat then false
      else lexLt as bs

/-- SQLite TEXT comparison `a < b`. -/
def sqlTextLt (a b : String) : Bool := lexLt a.data b.data

/-- SQLite comparison `executed_at < cutoff` on a NULL-able TEXT column:
NULL compares as NULL, i.e. the row does not satisfy the predicate. -/
def sqlLtCutoff : Option String → String → Bool
  | none, _ => false
  | some s, cutoff => sqlTextLt s cutoff

/-- The WHERE clause of the task DELETE in `cleanup_old_tasks` (source lines
843-847): terminal status and `executed_at` strictly before the cutoff. -/
def taskDeletable (cutoff : String) (r : DBRow) : Bool :=
  (r.status == "completed" || r.status == "failed" || r.status == "cancelled")
    && sqlLtCutoff r.executed_at cutoff

/-- `cleanup_old_tasks` (source lines 827-857): deletes execution logs with
`execution_time < cutoff`, then tasks matching `taskDeletable`.  The Python
function has no `return` statement (it returns `None`, modelled as the
`Option Nat` component being `none`); the count it logs is
`cursor.rowcount` after the *task* DELETE only.  Result:
(new database, returned value, logged count). -/
def cleanup_old_tasks (cutoff : String) (db : DB) : DB × Option Nat × Nat :=
  let logs2 := db.logs.filter (fun l => !sqlTextLt l.execution_time cutoff)
  let tasks2 := db.tasks.filter (fun r => !taskDeletable cutoff r)
  let deleted := db.tasks.length - tasks2.length
  ({ tasks := tasks2, logs := logs2 }, none, deleted)

/-! Helper lemmas shared by several claims. -/

theorem taskStatus_fromValue_value (s : TaskStatus) :
    TaskStatus.fromValue s.value = some s := by
  cases s <;> rfl

theorem taskType_fromValue_value (s : TaskType) :
    TaskType.fromValue s.value = some s := by
  cases s <;> rfl

theorem triggerType_fromValue_value (s : TriggerType) :
    TriggerType.fromValue s.value = some s := by
  cases s <;> rfl

theorem send_notification_countP_isSave (env : ExecEnv) (a b : String) :
    (_send_notification env a b).countP isSave = 0 := by
  unfold _send_notification
  split <;> rfl

theorem send_notification_countP_isLog (env : ExecEnv) (a b : String) :
    (_send_notification env a b).countP isLog = 0 := by
  unfold _send_notification
  split <;> rfl

theorem send_notification_savedTasks (env : ExecEnv) (a b : String) :
    savedTasks (_send_notification env a b) = [] := by
  unfold _send_notification
  split <;> rfl

theorem kindDispatch_countP_isSave (env : ExecEnv) (rc : Int) (out err : String)
    (t1 : Task) : (kindDispatch env rc out err t1).1.countP isSave = 0 := by
  cases ht : t1.task_type <;> simp only [kindDispatch, ht] <;>
    first
      | exact send_notification_countP_isSave ..
      | (split <;> first | rfl | (split <;> rfl))

theorem kindDispatch_countP_isLog (env : ExecEnv) (rc : Int) (out err : String)
    (t1 : Task) : (kindDispatch env rc out err t1).1.countP isLog = 0 := by
  cases ht : t1.task_type <;> simp only [kindDispatch, ht] <;>
    first
      | exact send_notification_countP_isLog ..
      | (split <;> first | rfl | (split <;> rfl))

theorem kindDispatch_savedTasks (env : ExecEnv) (rc : Int) (out err : String)
    (t1 : Task) : savedTasks (kindDispatch env rc out err t1).1 = [] := by
  cases ht : t1.task_type <;> simp only [kindDispatch, ht] <;>
    first
      | exact send_notification_savedTasks ..
      | (split <;> first | rfl | (split <;> rfl))

/-- The effect trace of one `_execute_task` call (empty when the call dies
with an uncaught exception before doing anything). -/
def execEffects (env : ExecEnv) (oc : ProcOutcome) (t : Task) : List Effect :=
  match _execute_task env oc t with
  | some r => r.2.2
  | none => []

/-- A concrete execution environment used by witnesses and counterexamples. -/
def cxEnv : ExecEnv :=
  { security := defaultSecurity,
    notify_kde := true,
    home := "/home/user",
    pyExe := "/usr/bin/python3",
    nowIso := "2024-06-01T12:00:00",
    duration := 7 }

/-- A concrete enabled COMMAND task whose command passes the default
security policy. -/
def echoTask : Task :=
  { id := some 4, name := "saludo", command := "echo", arguments := ["hola"] }

/-- C10 theorem body below needs the generic security-denial shape first.
C5-related: the task `_execute_task` builds on the denial branch. -/
def deniedTask (t : Task) : Task :=
  { t with status := TaskStatus.failed, output := denialOutput }

/-- C5 / C10: on the security-denial branch the only effect is one store
save of the FAILED task with the fixed denial output — no child process,
no log, no notification. -/
theorem execute_denied_effects (env : ExecEnv) (oc : ProcOutcome) (t : Task)
    (he : t.enabled = true)
    (hc : _check_command_security env.security t.command = some false) :
    _execute_task env oc t = some (false, deniedTask t, [Effect.saveTask (deniedTask t)]) := by
  unfold _execute_task
  rw [if_pos he, hc]
  rfl

theorem savedTasks_append (a b : List Effect) :
    savedTasks (a ++ b) = savedTasks a ++ savedTasks b := by
  simp [savedTasks]

theorem savedTasks_save_cons (t : Task) (es : List Effect) :
    savedTasks (Effect.saveTask t :: es) = t :: savedTasks es := by
  simp [savedTasks]

theorem savedTasks_log_cons (a : Option Nat) (b : String) (c : Nat) (d : Int)
    (e : String) (es : List Effect) :
    savedTasks (Effect.logExec a b c d e :: es) = savedTasks es := by
  simp [savedTasks]

theorem savedTasks_nil : savedTasks [] = [] := rfl

theorem loggedDurations_append (a b : List Effect) :
    loggedDurations (a ++ b) = loggedDurations a ++ loggedDurations b := by
  simp [loggedDurations]

theorem loggedDurations_save_cons (t : Task) (es : List Effect) :
    loggedDurations (Effect.saveTask t :: es) = loggedDurations es := by
  simp [loggedDurations]

theorem loggedDurations_send (env : ExecEnv) (a b : String) :
    loggedDurations (_send_notification env a b) = [] := by
  unfold _send_notification
  split <;> rfl

theorem send_ite_countP_isSave (p q : Prop) [Decidable p] [Decidable q]
    (env : ExecEnv) (a b a2 b2 : String) :
    (if p then _send_notification env a b
     else if q then _send_notification env a2 b2 else []).countP isSave = 0 := by
  split
  · exact send_notification_countP_isSave ..
  · split
    · exact send_notification_countP_isSave ..
    · rfl

theorem send_ite_countP_isLog (p q : Prop) [Decidable p] [Decidable q]
    (env : ExecEnv) (a b a2 b2 : String) :
    (if p then _send_notification env a b
     else if q then _send_notification env a2 b2 else []).countP isLog = 0 := by
  split
  · exact send_notification_countP_isLog ..
  · split
    · exact send_notification_countP_isLog ..
    · rfl

theorem send_ite_savedTasks (p q : Prop) [Decidable p] [Decidable q]
    (env : ExecEnv) (a b a2 b2 : String) :
    savedTasks (if p then _send_notification env a b
                else if q then _send_notification env a2 b2 else []) = [] := by
  split
  · exact send_notification_savedTasks ..
  · split
    · exact send_notification_savedTasks ..
    · rfl

theorem send_ite_loggedDurations (p q : Prop) [Decidable p] [Decidable q]
    (env : ExecEnv) (a b a2 b2 : String) :
    loggedDurations (if p then _send_notification env a b
                     else if q then _send_notification env a2 b2 else []) = [] := by
  split
  · exact loggedDurations_send ..
  · split
    · exact loggedDurations_send ..
    · rfl

/-- C2 (amended): for every enabled task that passes the security check, an
execution that finishes normally (success or ordinary failure) performs
exactly two Task Store saves (the RUNNING transition and the final result)
and exactly one ExecutionLogEntry append, while the timeout branch and the
exception branch perform two saves and NO ExecutionLogEntry append. -/
theorem C2_execution_effect_counts (env : ExecEnv) (t : Task) (rc : Int)
    (out err msg : String)
    (he : t.enabled = true)
    (hc : _check_command_security env.security t.command = some true) :
    ((execEffects env (ProcOutcome.finished rc out err) t).countP isSave = 2 ∧
     (execEffects env (ProcOutcome.finished rc out err) t).countP isLog = 1) ∧
    ((execEffects env ProcOutcome.timeout t).countP isSave = 2 ∧
     (execEffects env ProcOutcome.timeout t).countP isLog = 0) ∧
    ((execEffects env (ProcOutcome.exc msg) t).countP isSave = 2 ∧
     (execEffects env (ProcOutcome.exc msg) t).countP isLog = 0) := by
  unfold execEffects _execute_task
  simp only [he, hc]
  refine ⟨⟨?_, ?_⟩, ⟨?_, ?_⟩, ?_, ?_⟩ <;>
    simp [List.countP_append, List.countP_cons, isSave, isLog,
      kindDispatch_countP_isSave, kindDispatch_countP_isLog,
      send_notification_countP_isSave, send_notification_countP_isLog,
      send_ite_countP_isSave, send_ite_countP_isLog]

/-- C2 witness: the effect counts at a concrete successful echo run. -/
theorem C2_execution_effect_counts_witness :
    echoTask.enabled = true ∧
    _check_command_security cxEnv.security echoTask.command = some true ∧
    (execEffects cxEnv (ProcOutcome.finished 0 "hola" "") echoTask).countP isLog = 1 ∧
    (execEffects cxEnv ProcOutcome.timeout echoTask).countP isLog = 0 :=
  ⟨rfl, by decide,
   (C2_execution_effect_counts cxEnv echoTask 0 "hola" "" "boom" rfl (by decide)).1.2,
   (C2_execution_effect_counts cxEnv echoTask 0 "hola" "" "boom" rfl (by decide)).2.1.2⟩

/-- C2 counterexample: on the timeout branch of a concrete run the code
appends NO execution-log row (the claim demands exactly one) and performs
two store saves (the claim demands exactly one). -/
theorem C2_cx_timeout_logs_nothing :
    (execEffects cxEnv ProcOutcome.timeout echoTask).countP isLog = 0 ∧
    (execEffects cxEnv ProcOutcome.timeout echoTask).countP isSave = 2 := by
  decide

/-- C3 (amended): for every enabled COMMAND/SCRIPT task that passes the
security check, the timeout branch marks the task FAILED (never COMPLETED)
with the fixed marker "Timeout (5 minutos)" — but no duration is recorded
for the attempt, because the timeout handler never appends an
execution-log row. -/
theorem C3_timeout_failed_fixed_marker_no_duration (env : ExecEnv) (t : Task)
    (he : t.enabled = true)
    (_hk : t.task_type = TaskType.command ∨ t.task_type = TaskType.script)
    (hc : _check_command_security env.security t.command = some true) :
    ∃ t2 es, _execute_task env ProcOutcome.timeout t = some (false, t2, es) ∧
      t2.status = TaskStatus.failed ∧
      t2.status ≠ TaskStatus.completed ∧
      t2.output = timeoutOutput ∧
      loggedDurations es = [] := by
  unfold _execute_task
  simp only [he, hc]
  refine ⟨_, _, rfl, rfl, fun h => TaskStatus.noConfusion h, rfl, ?_⟩
  simp [loggedDurations_append, loggedDurations_save_cons, loggedDurations_send]

/-- C3 witness: the timeout branch at a concrete echo run. -/
theorem C3_timeout_failed_fixed_marker_no_duration_witness :
    echoTask.enabled = true ∧
    echoTask.task_type = TaskType.command ∧
    _check_command_security cxEnv.security echoTask.command = some true ∧
    ∃ t2 es, _execute_task cxEnv ProcOutcome.timeout echoTask = some (false, t2, es) ∧
      t2.status = TaskStatus.failed ∧
      t2.status ≠ TaskStatus.completed ∧
      t2.output = timeoutOutput ∧
      loggedDurations es = [] :=
  ⟨rfl, rfl, by decide,
   C3_timeout_failed_fixed_marker_no_duration cxEnv echoTask rfl (Or.inl rfl) (by decide)⟩

/-- C3 counterexample: at a concrete timed-out run, no duration whatsoever is
recorded for the attempt — the claim's "duration recorded is approximately
300 seconds" is false because the timeout path records nothing. -/
theorem C3_cx_no_duration_recorded :
    loggedDurations (execEffects cxEnv ProcOutcome.timeout echoTask) = [] := by
  decide

/-- C6 (amended): for every enabled, security-approved task that starts with
an empty executed-at, the executor persists exactly two states: first the
RUNNING state — whose executed-at is still empty, falsifying the claimed
biconditional — and then the final state, whose executed-at is set and whose
status is COMPLETED or FAILED. -/
theorem C6_executed_at_vs_status (env : ExecEnv) (oc : ProcOutcome) (t : Task)
    (he : t.enabled = true)
    (hc : _check_command_security env.security t.command = some true)
    (hx : t.executed_at = "")
    (hnow : env.nowIso ≠ "") :
    ∃ b t2 es, _execute_task env oc t = some (b, t2, es) ∧
      savedTasks es = [{ t with status := TaskStatus.running }, t2] ∧
      ({ t with status := TaskStatus.running }).executed_at = "" ∧
      t2.executed_at ≠ "" ∧
      (t2.status = TaskStatus.completed ∨ t2.status = TaskStatus.failed) := by
  unfold _execute_task
  simp only [he, hc]
  cases oc with
  | timeout =>
      refine ⟨_, _, _, rfl, ?_, hx, hnow, Or.inr rfl⟩
      simp [savedTasks_append, savedTasks_save_cons, send_notification_savedTasks,
        savedTasks_nil]
  | exc msg =>
      exact ⟨_, _, _, rfl, rfl, hx, hnow, Or.inr rfl⟩
  | finished rc out err =>
      refine ⟨_, _, _, rfl, ?_, hx, hnow, ?_⟩
      · simp [savedTasks_append, savedTasks_save_cons, savedTasks_log_cons,
          savedTasks_nil, kindDispatch_savedTasks, send_ite_savedTasks]
      · rcases h : (kindDispatch env rc out err { t with status := TaskStatus.running }).2.2 with
          _ | _ <;> simp [h]

/-- C6 witness: the two persisted states of a concrete successful echo run. -/
theorem C6_executed_at_vs_status_witness :
    echoTask.enabled = true ∧
    _check_command_security cxEnv.security echoTask.command = some true ∧
    echoTask.executed_at = "" ∧
    cxEnv.nowIso ≠ "" ∧
    ∃ b t2 es,
      _execute_task cxEnv (ProcOutcome.finished 0 "hola" "") echoTask = some (b, t2, es) ∧
      savedTasks es = [{ echoTask with status := TaskStatus.running }, t2] ∧
      ({ echoTask with status := TaskStatus.running }).executed_at = "" ∧
      t2.executed_at ≠ "" ∧
      (t2.status = TaskStatus.completed ∨ t2.status = TaskStatus.failed) :=
  ⟨rfl, by decide, rfl, by decide,
   C6_executed_at_vs_status cxEnv (ProcOutcome.finished 0 "hola" "") echoTask rfl
     (by decide) rfl (by decide)⟩

/-- C6 counterexample: in a concrete run, the first state the executor
persists has status RUNNING and empty executed-at — so "executed-at is
non-empty iff status ∈ RUNNING/COMPLETED/FAILED" fails at an intermediate
persisted state. -/
theorem C6_cx_running_persisted_with_empty_executed_at :
    (savedTasks (execEffects cxEnv (ProcOutcome.finished 0 "hola" "") echoTask)).head? =
      some { echoTask with status := TaskStatus.running } ∧
    ({ echoTask with status := TaskStatus.running }).status = TaskStatus.running ∧
    ({ echoTask with status := TaskStatus.running }).executed_at = "" := by
  refine ⟨?_, rfl, rfl⟩
  decide

/-- A concrete task whose command matches the blocked pattern "shutdown". -/
def blockedTask : Task :=
  { id := some 7, name := "apagar", command := "shutdown now" }

/-- The database row of `blockedTask` as originally inserted (before the
security-denied execution attempt). -/
def pendingRow7 : DBRow := insertRow "2024-06-01T00:00:00" 7 { blockedTask with id := none }

/-- C5: at a concrete blocked task, `_execute_task` marks the task FAILED with
the fixed denial output in memory, performs one store save and spawns no child
process — but the save's UPDATE statement does not write the `output` (or
`executed_at`/`result_code`) column, so the stored row keeps status "failed"
with output still NULL: the denial result is not durably persisted as the
claim (and spec §7's operator-visibility requirement) demands. -/
theorem C5_denied_output_not_persisted :
    _execute_task cxEnv (ProcOutcome.finished 0 "" "") blockedTask =
      some (false, deniedTask blockedTask, [Effect.saveTask (deniedTask blockedTask)]) ∧
    (deniedTask blockedTask).status = TaskStatus.failed ∧
    (deniedTask blockedTask).output = denialOutput ∧
    List.countP isSpawn [Effect.saveTask (deniedTask blockedTask)] = 0 ∧
    (_save_task_to_db "2024-06-01T12:00:01" 9 pendingRow7 (deniedTask blockedTask)).status
      = "failed" ∧
    (_save_task_to_db "2024-06-01T12:00:01" 9 pendingRow7 (deniedTask blockedTask)).output
      = none := by
  refine ⟨?_, rfl, rfl, rfl, rfl, rfl⟩
  exact execute_denied_effects cxEnv (ProcOutcome.finished 0 "" "") blockedTask rfl (by decide)

/-- C10: for every enabled task of kind NOTIFICATION or REMINDER whose
command fails the security check, the check runs before any kind-specific
action: the task is marked FAILED with the fixed denial output, the only
effect is the single store save, and in particular no notification is shown
and no child process is spawned. -/
theorem C10_security_gate_precedes_kind_action (env : ExecEnv) (oc : ProcOutcome)
    (t : Task)
    (he : t.enabled = true)
    (_hk : t.task_type = TaskType.notification ∨ t.task_type = TaskType.reminder)
    (hc : _check_command_security env.security t.command = some false) :
    _execute_task env oc t = some (false, deniedTask t, [Effect.saveTask (deniedTask t)]) ∧
    (deniedTask t).status = TaskStatus.failed ∧
    (deniedTask t).output = denialOutput ∧
    List.countP isNotif [Effect.saveTask (deniedTask t)] = 0 ∧
    List.countP isSpawn [Effect.saveTask (deniedTask t)] = 0 :=
  ⟨execute_denied_effects env oc t he hc, rfl, rfl, rfl, rfl⟩

/-- A concrete REMINDER task whose command is free text: its first token
"Tomar" is not in the (non-empty) default allow-list. -/
def reminderTask : Task :=
  { name := "hidratarse", task_type := TaskType.reminder, command := "Tomar agua" }

/-- C10 witness: the concrete reminder task is denied and never notified. -/
theorem C10_security_gate_precedes_kind_action_witness :
    reminderTask.enabled = true ∧
    reminderTask.task_type = TaskType.reminder ∧
    _check_command_security cxEnv.security reminderTask.command = some false ∧
    _execute_task cxEnv (ProcOutcome.finished 0 "" "") reminderTask =
      some (false, deniedTask reminderTask, [Effect.saveTask (deniedTask reminderTask)]) ∧
    List.countP isNotif [Effect.saveTask (deniedTask reminderTask)] = 0 :=
  ⟨rfl, rfl, by decide,
   (C10_security_gate_precedes_kind_action cxEnv (ProcOutcome.finished 0 "" "")
     reminderTask rfl (Or.inr rfl) (by decide)).1,
   rfl⟩

/-- A concrete enabled TIME task scheduled for absolute time 10. -/
def timeTask : Task :=
  { id := some 1, name := "unavez", command := "echo",
    trigger_type := TriggerType.time, trigger_data := { datetime := some 10 } }

/-- C4: a TIME task registered at time 0 for absolute time 10 is dispatched at
the tick at time 10 — and dispatched AGAIN at the tick at time 20, because
`_schedule_time_trigger` registers a recurring every-`delay`-seconds
`schedule` job whose callback never returns `CancelJob`, so the fired trigger
is re-armed.  This refutes the one-shot claim; the spec (and the source's own
"Fecha/hora específica" intent) says the task must fire at most once. -/
theorem C4_time_trigger_is_rearmed :
    (runPending 10 (_schedule_time_trigger 0 timeTask)).1 = 1 ∧
    (runPending 20 (runPending 10 (_schedule_time_trigger 0 timeTask)).2).1 = 1 := by
  decide

/-- A concrete TIME task whose scheduled timestamp (5) is already past at
registration time (10). -/
def pastTimeTask : Task :=
  { id := some 2, name := "perdida", command := "echo",
    trigger_type := TriggerType.time, trigger_data := { datetime := some 5 } }

/-- C9 counterexample: registering a TIME task whose timestamp is already
past registers no job at all, so the next tick (at time 11) dispatches
nothing — the claim says it fires on the next scheduling tick. -/
theorem C9_cx_past_time_task_never_fires :
    _schedule_time_trigger 10 pastTimeTask = [] ∧
    (runPending 11 (_schedule_time_trigger 10 pastTimeTask)).1 = 0 := by
  decide

/-- C9 (amended): a TIME task whose absolute timestamp is not strictly in the
future at registration time is treated as missed: `_schedule_time_trigger`
registers nothing, and every later tick dispatches zero jobs for it. -/
theorem C9_past_time_task_suppressed (regTime sched : Nat) (t : Task)
    (hd : t.trigger_data.datetime = some sched)
    (hp : sched ≤ regTime) :
    _schedule_time_trigger regTime t = [] ∧
    ∀ now : Nat, (runPending now (_schedule_time_trigger regTime t)).1 = 0 := by
  have hreg : _schedule_time_trigger regTime t = [] := by
    unfold _schedule_time_trigger
    rw [hd]
    exact if_neg (Nat.not_lt.mpr hp)
  exact ⟨hreg, fun now => by rw [hreg]; rfl⟩

/-- C9 witness: the amended behavior at the concrete past-dated task. -/
theorem C9_past_time_task_suppressed_witness :
    pastTimeTask.trigger_data.datetime = some 5 ∧ 5 ≤ 10 ∧
    _schedule_time_trigger 10 pastTimeTask = [] ∧
    (runPending 42 (_schedule_time_trigger 10 pastTimeTask)).1 = 0 :=
  ⟨rfl, by decide,
   (C9_past_time_task_suppressed 10 5 pastTimeTask rfl (by decide)).1,
   (C9_past_time_task_suppressed 10 5 pastTimeTask rfl (by decide)).2 42⟩

/-- C7 (amended): the retention sweep deletes exactly the execution-log rows
whose execution time strictly predates the cutoff and the terminal-status
tasks whose (non-NULL) executed-at strictly predates the cutoff, and keeps
every other row (non-terminal tasks of any age included) — but it does not
return the count of deleted rows: the Python function returns `None`, and
the count it merely logs is the rowcount of the task DELETE alone, so
deleted log rows are never counted. -/
theorem C7_cleanup_deletes_exactly_but_returns_nothing (cutoff : String) (db : DB) :
    (∀ l : LogRow, l ∈ (cleanup_old_tasks cutoff db).1.logs ↔
        l ∈ db.logs ∧ sqlTextLt l.execution_time cutoff = false) ∧
    (∀ r : DBRow, r ∈ (cleanup_old_tasks cutoff db).1.tasks ↔
        r ∈ db.tasks ∧ taskDeletable cutoff r = false) ∧
    (cleanup_old_tasks cutoff db).2.1 = none ∧
    (cleanup_old_tasks cutoff db).2.2 + (cleanup_old_tasks cutoff db).1.tasks.length
      = db.tasks.length := by
  refine ⟨?_, ?_, rfl, ?_⟩
  · intro l
    simp [cleanup_old_tasks, List.mem_filter]
  · intro r
    simp [cleanup_old_tasks, List.mem_filter]
  · simp only [cleanup_old_tasks]
    exact Nat.sub_add_cancel (List.length_filter_le _ _)

/-- An old execution-log row. -/
def oldLog : LogRow :=
  { id := 1, task_id := 3, execution_time := "2020-01-01T00:00:00",
    duration := 1, result_code := 0, output := "ok" }

/-- An old COMPLETED task row with executed-at before the cutoff used below. -/
def oldDoneRow : DBRow :=
  { id := 3, name := "vieja", description := "", task_type := "command",
    command := "echo", arguments := [], working_dir := "", trigger_type := "time",
    trigger_data := {}, status := "completed", created_at := "2019-12-31T00:00:00",
    scheduled_for := "", executed_at := some "2020-01-01T00:00:00",
    result_code := some 0, output := some "ok", enabled := 1,
    notify_on_completion := 1, max_retries := 3, retry_count := 0 }

/-- A database holding exactly one old log row and one old terminal task. -/
def cxDb : DB := { tasks := [oldDoneRow], logs := [oldLog] }

/-- C7 counterexample: on a concrete database the sweep deletes two rows
(one log, one task), yet it returns `None` rather than the claimed count of
deleted rows, and the only count it produces (the logged one) is 1. -/
theorem C7_cx_returns_none_not_count :
    (cleanup_old_tasks "2024-01-01T00:00:00" cxDb).1.tasks = [] ∧
    (cleanup_old_tasks "2024-01-01T00:00:00" cxDb).1.logs = [] ∧
    (cleanup_old_tasks "2024-01-01T00:00:00" cxDb).2.1 = none ∧
    (cleanup_old_tasks "2024-01-01T00:00:00" cxDb).2.2 = 1 := by
  decide

theorem taskType_value_of_fromValue {s : String} {x : TaskType}
    (h : TaskType.fromValue s = some x) : x.value = s := by
  unfold TaskType.fromValue at h
  split at h <;> simp_all [TaskType.value] <;> rw [← h]

theorem triggerType_value_of_fromValue {s : String} {x : TriggerType}
    (h : TriggerType.fromValue s = some x) : x.value = s := by
  unfold TriggerType.fromValue at h
  split at h <;> simp_all [TriggerType.value] <;> rw [← h]

theorem taskStatus_value_of_fromValue {s : String} {x : TaskStatus}
    (h : TaskStatus.fromValue s = some x) : x.value = s := by
  unfold TaskStatus.fromValue at h
  split at h <;> simp_all [TaskStatus.value] <;> rw [← h]

/-- Writing back a freshly loaded task over its own row is the identity,
provided the row's booleans are genuine 0/1 and its `max_retries` is not the
falsy 0 (which the load replaces by the dataclass default 3). -/
theorem updateRow_load (r : DBRow) (l : Task)
    (hl : _load_task_from_db r = some l)
    (he : r.enabled = 0 ∨ r.enabled = 1)
    (hn : r.notify_on_completion = 0 ∨ r.notify_on_completion = 1)
    (hm : r.max_retries ≠ 0) :
    updateRow l r = r := by
  obtain ⟨rid, rname, rdesc, rty, rcmd, rargs, rwd, rgt, rtd, rst, rca, rsf,
    rea, rrc, rout, ren, rnoc, rmr, rrcnt⟩ := r
  unfold _load_task_from_db at hl
  split at hl
  case _ tt gt st htt hgt hst =>
    injection hl with hl
    subst hl
    unfold updateRow
    have hm2 : rmr ≠ 0 := hm
    have e3 : (if rmr = 0 then (3 : Int) else rmr) = rmr := if_neg hm2
    have e4 : (if rrcnt = 0 then (0 : Int) else rrcnt) = rrcnt := by
      split <;> omega
    have he2 : ren = 0 ∨ ren = 1 := he
    have hn2 : rnoc = 0 ∨ rnoc = 1 := hn
    rcases he2 with h1 | h1 <;> rcases hn2 with h2 | h2 <;>
      simp [taskType_value_of_fromValue htt, triggerType_value_of_fromValue hgt,
        taskStatus_value_of_fromValue hst, e3, e4, h1, h2]
  case _ => exact Option.noConfusion hl

theorem load_id (r : DBRow) (l : Task) (hl : _load_task_from_db r = some l) :
    l.id = some r.id := by
  unfold _load_task_from_db at hl
  split at hl
  · injection hl with hl
    subst hl
    rfl
  · exact Option.noConfusion hl

/-- C8 (amended): for every task whose `max_retries` is not 0, saving it,
loading the stored row back and saving the loaded task again is idempotent —
the second save leaves the stored row exactly as the first save wrote it.
(For `max_retries = 0` the load's Python-truthiness fallback substitutes the
dataclass default 3, and the second save persists that drift.) -/
theorem C8_save_load_save_idempotent (now1 now2 : String) (i1 i2 : Nat)
    (r0 : DBRow) (t : Task) (h : t.max_retries ≠ 0) :
    ∃ l, _load_task_from_db (_save_task_to_db now1 i1 r0 t) = some l ∧
      _save_task_to_db now2 i2 (_save_task_to_db now1 i1 r0 t) l =
        _save_task_to_db now1 i1 r0 t := by
  set r1 := _save_task_to_db now1 i1 r0 t with hr1
  have hsplit : r1 = insertRow now1 i1 t ∨ r1 = updateRow t r0 := by
    cases ht : t.id <;> simp [hr1, _save_task_to_db, ht]
  have hen : r1.enabled = 0 ∨ r1.enabled = 1 := by
    rcases hsplit with h1 | h1 <;> rw [h1] <;> cases t.enabled <;>
      simp [insertRow, updateRow]
  have hno : r1.notify_on_completion = 0 ∨ r1.notify_on_completion = 1 := by
    rcases hsplit with h1 | h1 <;> rw [h1] <;> cases t.notify_on_completion <;>
      simp [insertRow, updateRow]
  have hmr : r1.max_retries ≠ 0 := by
    rcases hsplit with h1 | h1 <;> rw [h1] <;> simpa [insertRow, updateRow] using h
  have hvals : r1.task_type = t.task_type.value ∧ r1.trigger_type = t.trigger_type.value ∧
      r1.status = t.status.value := by
    rcases hsplit with h1 | h1 <;> rw [h1] <;> exact ⟨rfl, rfl, rfl⟩
  have hload : ∃ l, _load_task_from_db r1 = some l := by
    unfold _load_task_from_db
    rw [hvals.1, hvals.2.1, hvals.2.2, taskType_fromValue_value,
      triggerType_fromValue_value, taskStatus_fromValue_value]
    exact ⟨_, rfl⟩
  obtain ⟨l, hl⟩ := hload
  refine ⟨l, hl, ?_⟩
  have hstep : _save_task_to_db now2 i2 r1 l = updateRow l r1 := by
    simp only [_save_task_to_db, load_id r1 l hl]
  rw [hstep]
  exact updateRow_load r1 l hl hen hno hmr

/-- C8 witness: the round trip at a concrete freshly created task. -/
theorem C8_save_load_save_idempotent_witness :
    echoTask.max_retries ≠ 0 ∧
    ∃ l, _load_task_from_db
          (_save_task_to_db "2024-06-01T00:00:00" 1 oldDoneRow echoTask) = some l ∧
      _save_task_to_db "2024-06-02T00:00:00" 2
          (_save_task_to_db "2024-06-01T00:00:00" 1 oldDoneRow echoTask) l =
        _save_task_to_db "2024-06-01T00:00:00" 1 oldDoneRow echoTask :=
  ⟨by decide,
   C8_save_load_save_idempotent "2024-06-01T00:00:00" "2024-06-02T00:00:00" 1 2
     oldDoneRow echoTask (by decide)⟩

/-- A task with `max_retries = 0`, on which the round trip drifts. -/
def zeroRetryTask : Task := { name := "cero", command := "echo", max_retries := 0 }

/-- C8 counterexample: saving a task with `max_retries = 0`, loading it back
and saving again silently changes the stored `max_retries` from 0 to 3 — the
claimed idempotence fails. -/
theorem C8_cx_max_retries_drift :
    (_save_task_to_db "2024-01-01T00:00:00" 1 oldDoneRow zeroRetryTask).max_retries = 0 ∧
    ((_load_task_from_db (_save_task_to_db "2024-01-01T00:00:00" 1 oldDoneRow zeroRetryTask)).map
      (fun l => (_save_task_to_db "2024-01-02T00:00:00" 2
        (_save_task_to_db "2024-01-01T00:00:00" 1 oldDoneRow zeroRetryTask) l).max_retries))
      = some 3 := by
  decide

end ProgramadorTareas
